import Mathlib

/-!
Verification of the TokenVault signature-authorized withdrawal protocol.

The development shallowly embeds the Solidity contract TokenVault
(withdrawTo, its EIP-712 digest construction, the per-account nonce
mapping, revert semantics) and the JavaScript backend issuer
(tokenVault-backend.js: DOMAIN, TYPES, getNonce, createWithdrawalRequest).

Modelling choices:
- Addresses, uint256 values and signatures are natural numbers.  The one
  arithmetic operation in withdrawTo, the checked increment of
  nonces[recipient], carries its Solidity 0.8 overflow revert explicitly.
- keccak256 / EIP-712 hashing is modelled symbolically (collision-free):
  a digest is the triple of the domain descriptor, the encoded type
  string, and the struct field values, so two digests are equal exactly
  when all hashed components are equal.
- ECDSA recovery and the external ERC-20 token are collaborators outside
  the contract; they enter as an environment record: a recovery function
  from digest and signature to an optional address (none models an ECDSA
  revert on malformed input) and the boolean outcome of token.transfer.
- An EVM call either returns the new state plus the emitted event or
  reverts; reverting discards every intermediate write, so withdrawTo
  returns Except: an error carries no state and the caller keeps the
  pre-call state (see noncesAfter / stateAfter).
-/

namespace TokenVault

/-- Addresses are modelled as natural numbers. -/
abbrev Address := Nat

/-- Opaque signature bytes, modelled as an identifier. -/
abbrev Signature := Nat

/-- One past the largest uint256 value; Solidity 0.8 checked addition
reverts when a sum reaches this bound. -/
def UINT256_MOD : Nat := 2 ^ 256

/-- Contract constant SIGNING_DOMAIN (TokenVault line 17). -/
def SIGNING_DOMAIN : String := "WithdrawAuthorization"

/-- Contract constant SIGNATURE_VERSION (TokenVault line 18). -/
def SIGNATURE_VERSION : String := "1"

/-- The EIP-712 type string whose keccak256 is the contract's
WITHDRAW_TYPEHASH (TokenVault lines 20-22).  Hashing is symbolic, so the
type hash is represented by the string itself. -/
def WITHDRAW_TYPEHASH : String :=
  "Withdraw(address recipient,uint256 amount,uint256 nonce,uint256 deadline)"

/-- EIP-712 domain descriptor: name, version, chain id, verifying
contract address. -/
structure Domain where
  name : String
  version : String
  chainId : Nat
  verifyingContract : Address
deriving DecidableEq, Repr

/-- The struct the user signs: recipient, amount, nonce, deadline, in
declared order. -/
structure WithdrawMessage where
  recipient : Address
  amount : Nat
  nonce : Nat
  deadline : Nat
deriving DecidableEq, Repr

/-- Symbolic EIP-712 digest: keccak256 is modelled as a collision-free
(injective) encoding, so the digest is identified with the data that is
hashed: the domain separator's fields, the struct type string, and the
struct field values. -/
structure Digest where
  domain : Domain
  typeString : String
  message : WithdrawMessage
deriving DecidableEq, Repr

/-- The digest the contract computes in withdrawTo (lines 55-59):
keccak256(abi.encode(WITHDRAW_TYPEHASH, recipient, amount, nonce,
deadline)) combined with the domain separator by _hashTypedDataV4. -/
def contractDigest (dom : Domain) (m : WithdrawMessage) : Digest :=
  ⟨dom, WITHDRAW_TYPEHASH, m⟩

/-- The domain separator fixed at deployment by the EIP712 constructor
call EIP712(SIGNING_DOMAIN, SIGNATURE_VERSION) together with the chain id
and the deployed contract address. -/
def contractDomain (chainId : Nat) (verifyingContract : Address) : Domain :=
  ⟨SIGNING_DOMAIN, SIGNATURE_VERSION, chainId, verifyingContract⟩

/-- The distinct revert causes of withdrawTo. -/
inductive VaultError where
  | signatureExpired
  | ecdsaInvalid
  | invalidSigner
  | nonceOverflow
  | transferFailed
deriving DecidableEq, Repr

/-- The revert reason attached to each failure: the require strings of
the source, the OpenZeppelin ECDSA revert, and the checked-arithmetic
panic. -/
def VaultError.reason : VaultError → String
  | .signatureExpired => "Signature expired"
  | .ecdsaInvalid => "ECDSA invalid signature"
  | .invalidSigner => "Invalid signer"
  | .nonceOverflow => "arithmetic overflow"
  | .transferFailed => "Transfer failed"

/-- The event Withdraw(recipient, amount, nonce) (TokenVault line 30). -/
structure WithdrawEvent where
  recipient : Address
  amount : Nat
  nonce : Nat
deriving DecidableEq, Repr

/-- Contract storage relevant to withdrawTo: the nonces mapping
(TokenVault line 24).  A Solidity mapping reads 0 at any key never
written, so the state is a total function with default 0 at fresh keys. -/
structure VaultState where
  nonces : Address → Nat

/-- The freshly deployed state: every account's nonce counter is absent,
hence reads as 0. -/
def initialState : VaultState := ⟨fun _ => 0⟩

/-- The blockchain environment of one call: the block timestamp, the
ECDSA recovery oracle (none models a revert inside ECDSA.recover on
malformed signature bytes), and the outcome of the external
token.transfer call. -/
structure Env where
  timestamp : Nat
  recover : Digest → Signature → Option Address
  transferOk : Address → Nat → Bool

/-- TokenVault.withdrawTo (lines 45-70), step for step:
require(block.timestamp <= deadline, "Signature expired"); read
nonce := nonces[recipient]; build the struct hash and typed-data digest;
signer := ECDSA.recover(digest, signature); require(signer == recipient,
"Invalid signer"); nonces[recipient] += 1 (checked, reverts on uint256
overflow); require(token.transfer(recipient, amount), "Transfer failed");
emit Withdraw(recipient, amount, nonce).  A revert returns an error and
no state. -/
def withdrawTo (env : Env) (dom : Domain) (s : VaultState)
    (recipient amount deadline : Nat) (sig : Signature) :
    Except VaultError (VaultState × WithdrawEvent) :=
  if env.timestamp ≤ deadline then
    let nonce := s.nonces recipient
    let digest := contractDigest dom ⟨recipient, amount, nonce, deadline⟩
    match env.recover digest sig with
    | none => .error .ecdsaInvalid
    | some signer =>
      if signer = recipient then
        if nonce + 1 < UINT256_MOD then
          if env.transferOk recipient amount then
            .ok (⟨fun x => if x = recipient then nonce + 1 else s.nonces x⟩,
                 ⟨recipient, amount, nonce⟩)
          else
            .error .transferFailed
        else
          .error .nonceOverflow
      else
        .error .invalidSigner
  else
    .error .signatureExpired

/-- The nonce mapping the caller observes after the call: the new state
on success, the unchanged pre-call state on revert (EVM revert
semantics). -/
def noncesAfter (s : VaultState)
    (res : Except VaultError (VaultState × WithdrawEvent)) : Address → Nat :=
  match res with
  | .ok (s', _) => s'.nonces
  | .error _ => s.nonces

/-- The revert cause of a call, if it reverted. -/
def errorOf (res : Except VaultError (VaultState × WithdrawEvent)) :
    Option VaultError :=
  match res with
  | .ok _ => none
  | .error e => some e

/-- The audit events emitted by a call: exactly one Withdraw record on
success, none on revert. -/
def eventsOf (res : Except VaultError (VaultState × WithdrawEvent)) :
    List WithdrawEvent :=
  match res with
  | .ok (_, ev) => [ev]
  | .error _ => []

/-- The contract state after a withdrawTo call, reverts included. -/
def stateAfter (env : Env) (dom : Domain) (s : VaultState)
    (recipient amount deadline : Nat) (sig : Signature) : VaultState :=
  ⟨noncesAfter s (withdrawTo env dom s recipient amount deadline sig)⟩

/- ——— The backend issuer (tokenVault-backend.js) ——— -/

/-- The backend DOMAIN object (lines 12-17).  Its name and version are
the literals of the source; chainId and verifyingContract are deployment
placeholders in the source ("Replace with your chain ID" / contract
address) and are therefore parameters. -/
def DOMAIN (chainId : Nat) (verifyingContract : Address) : Domain :=
  ⟨"WithdrawAuthorization", "1", chainId, verifyingContract⟩

/-- One field entry of an EIP-712 types table. -/
structure TypedField where
  name : String
  type : String
deriving DecidableEq, Repr

/-- The backend TYPES.Withdraw list (lines 20-27), in source order. -/
def TYPES_Withdraw : List TypedField :=
  [⟨"recipient", "address"⟩, ⟨"amount", "uint256"⟩,
   ⟨"nonce", "uint256"⟩, ⟨"deadline", "uint256"⟩]

/-- EIP-712 encodeType: the type string ethers derives from a types
table, primaryType followed by the parenthesised comma-separated list of
field type and field name. -/
def encodeType (primaryType : String) (fields : List TypedField) : String :=
  primaryType ++ "(" ++
    String.intercalate "," (fields.map (fun f => f.type ++ " " ++ f.name)) ++ ")"

/-- The digest ethers computes for the backend from DOMAIN, TYPES and a
message, under the same symbolic keccak model as the contract. -/
def backendDigest (chainId : Nat) (verifyingContract : Address)
    (m : WithdrawMessage) : Digest :=
  ⟨DOMAIN chainId verifyingContract, encodeType "Withdraw" TYPES_Withdraw, m⟩

/-- TokenVaultBackend.getNonce (lines 41-49): reads
contract.nonces(userAddress), the verifier's current counter. -/
def getNonce (chainNonces : Address → Nat) (userAddress : Address) : Nat :=
  chainNonces userAddress

/-- The object createWithdrawalRequest returns to the frontend: the
domain, the types table, and the data payload the wallet signs.  The
cosmetic human-readable display string of the source (built with
formatEther) is not modelled. -/
structure WithdrawalRequest where
  domain : Domain
  types : List TypedField
  data : WithdrawMessage
deriving DecidableEq, Repr

/-- TokenVaultBackend.createWithdrawalRequest (lines 153-175):
nonce := getNonce(recipient) read from the contract at issuance time;
deadline := floor(Date.now() / 1000) + deadlineMinutes * 60 with
deadlineMinutes defaulting to 30; returns domain, types and the data
payload.  chainNonces is the verifier's nonce mapping at the moment of
the call, nowMs the current wall clock in milliseconds. -/
def createWithdrawalRequest (chainNonces : Address → Nat)
    (chainId : Nat) (verifyingContract : Address) (nowMs : Nat)
    (recipient amount : Nat) (deadlineMinutes : Nat := 30) :
    WithdrawalRequest :=
  let nonce := getNonce chainNonces recipient
  let deadline := nowMs / 1000 + deadlineMinutes * 60
  { domain := DOMAIN chainId verifyingContract
    types := TYPES_Withdraw
    data := ⟨recipient, amount, nonce, deadline⟩ }

/- ——— Concrete instances used by the witnesses ——— -/

/-- A concrete deployed domain: chain id 1, contract address 1001. -/
def egDomain : Domain := ⟨"WithdrawAuthorization", "1", 1, 1001⟩

/-- The same deployment parameters on chain id 2. -/
def egDomainOtherChain : Domain := ⟨"WithdrawAuthorization", "1", 2, 1001⟩

/-- Fresh vault state: all nonce counters read 0. -/
def egState : VaultState := initialState

/-- A concrete withdrawal message for recipient 5, amount 1000, nonce 0,
with the given deadline. -/
def egMsgAt (deadline : Nat) : WithdrawMessage := ⟨5, 1000, 0, deadline⟩

/-- A concrete ECDSA oracle: signature 7 is recipient 5's signature over
the digest of egMsgAt 100 under egDomain (recovering a stranger, 99, on
any other digest); signature 9 is 5's signature over the digest of
egMsgAt 50; signature 8 recovers the stranger 3 everywhere; everything
else is malformed. -/
def egRecover : Digest → Signature → Option Address := fun dig sig =>
  if sig = 7 then
    (if dig = contractDigest egDomain (egMsgAt 100) then some 5 else some 99)
  else if sig = 9 then
    (if dig = contractDigest egDomain (egMsgAt 50) then some 5 else some 99)
  else if sig = 8 then some 3
  else none

/-- Concrete environment: block timestamp 50, the oracle above, token
transfers succeed. -/
def egEnv : Env := ⟨50, egRecover, fun _ _ => true⟩

/-- Same environment but every token.transfer returns false. -/
def egEnvNoTransfer : Env := ⟨50, egRecover, fun _ _ => false⟩

/- ——— Shared evaluation lemmas ——— -/

/-- On a valid, in-time authorization with a successful token transfer
and no nonce overflow, withdrawTo returns the bumped state and the
Withdraw event carrying the pre-increment nonce. -/
theorem withdrawTo_success_eq
    (env : Env) (dom : Domain) (s : VaultState) (r a d : Nat) (sig : Signature)
    (hd : env.timestamp ≤ d)
    (hsig : env.recover (contractDigest dom ⟨r, a, s.nonces r, d⟩) sig = some r)
    (hov : s.nonces r + 1 < UINT256_MOD)
    (ht : env.transferOk r a = true) :
    withdrawTo env dom s r a d sig =
      .ok (⟨fun x => if x = r then s.nonces r + 1 else s.nonces x⟩,
           ⟨r, a, s.nonces r⟩) := by
  unfold withdrawTo
  rw [if_pos hd]
  simp only [hsig, if_pos rfl, if_pos hov, ht, if_pos trivial, if_true]

/-- On a reverted call the observed nonce mapping is the pre-call one. -/
theorem noncesAfter_of_error (s : VaultState)
    (res : Except VaultError (VaultState × WithdrawEvent)) (e : VaultError)
    (h : res = .error e) : noncesAfter s res = s.nonces := by
  subst h
  rfl

/- ——— Claim theorems ——— -/

/-- C5: the backend's TYPES object encodes exactly the type string hashed
in the contract's WITHDRAW_TYPEHASH, the backend DOMAIN name and version
equal the contract's SIGNING_DOMAIN and SIGNATURE_VERSION, and for equal
field values, chain id and contract address the backend and the contract
compute the same typed-data digest. -/
theorem backend_contract_schema_consistent :
    encodeType "Withdraw" TYPES_Withdraw = WITHDRAW_TYPEHASH ∧
    (∀ cid vc, (DOMAIN cid vc).name = SIGNING_DOMAIN ∧
      (DOMAIN cid vc).version = SIGNATURE_VERSION) ∧
    (∀ cid vc m, backendDigest cid vc m = contractDigest (contractDomain cid vc) m) :=
  ⟨rfl, fun _ _ => ⟨rfl, rfl⟩, fun _ _ _ => rfl⟩

/-- C7: createWithdrawalRequest reads the verifier's current nonce for
the recipient at issuance time, sets deadline to the current time in
seconds plus deadlineMinutes * 60 (default 30 minutes), and returns the
domain, the Withdraw types table, and the message payload with exactly
those four fields. -/
theorem createWithdrawalRequest_spec
    (chainNonces : Address → Nat) (cid : Nat) (vc : Address)
    (nowMs recipient amount dm : Nat) :
    (createWithdrawalRequest chainNonces cid vc nowMs recipient amount dm).data =
      ⟨recipient, amount, chainNonces recipient, nowMs / 1000 + dm * 60⟩ ∧
    (createWithdrawalRequest chainNonces cid vc nowMs recipient amount dm).domain =
      DOMAIN cid vc ∧
    (createWithdrawalRequest chainNonces cid vc nowMs recipient amount dm).types =
      TYPES_Withdraw ∧
    (createWithdrawalRequest chainNonces cid vc nowMs recipient amount).data.deadline =
      nowMs / 1000 + 1800 :=
  ⟨rfl, rfl, rfl, rfl⟩

/-- C1: a withdrawTo call made at or before the deadline with a valid
signature by the recipient over the typed-data digest of the message at
the current stored nonce succeeds, and the recipient's nonce counter
moves from n to n + 1 while every other counter is untouched (an absent
counter reads 0, the mapping default).  The side conditions are the
collaborators the spec assumes: the token transfer succeeds, and the
uint256 counter does not sit at its checked-arithmetic bound. -/
theorem withdrawTo_valid_succeeds
    (env : Env) (dom : Domain) (s : VaultState) (r a d : Nat) (sig : Signature)
    (hd : env.timestamp ≤ d)
    (hsig : env.recover (contractDigest dom ⟨r, a, s.nonces r, d⟩) sig = some r)
    (hov : s.nonces r + 1 < UINT256_MOD)
    (ht : env.transferOk r a = true) :
    errorOf (withdrawTo env dom s r a d sig) = none ∧
    (stateAfter env dom s r a d sig).nonces r = s.nonces r + 1 ∧
    ∀ x, x ≠ r → (stateAfter env dom s r a d sig).nonces x = s.nonces x := by
  have h := withdrawTo_success_eq env dom s r a d sig hd hsig hov ht
  refine ⟨?_, ?_, ?_⟩
  · simp [errorOf, h]
  · simp [stateAfter, noncesAfter, h]
  · intro x hx
    simp [stateAfter, noncesAfter, h, hx]

/-- Witness for C1 at a concrete input: recipient 5, amount 1000,
deadline 100, signature 7 at timestamp 50 on the fresh state. -/
theorem withdrawTo_valid_succeeds_witness :
    errorOf (withdrawTo egEnv egDomain egState 5 1000 100 7) = none ∧
    (stateAfter egEnv egDomain egState 5 1000 100 7).nonces 5 = 1 ∧
    (stateAfter egEnv egDomain egState 5 1000 100 7).nonces 6 = 0 := by
  have h := withdrawTo_valid_succeeds egEnv egDomain egState 5 1000 100 7
    (by decide) rfl (by norm_num [egState, initialState, UINT256_MOD]) rfl
  exact ⟨h.1, h.2.1, h.2.2 6 (by decide)⟩

/-- C4: when ECDSA recovery over the reconstructed digest yields an
identity different from the recipient parameter, withdrawTo reverts with
the Invalid signer error, no nonce counter changes and no event is
emitted: only the recipient can authorize their own withdrawal. -/
theorem withdrawTo_unauthorized_signer_fails
    (env : Env) (dom : Domain) (s : VaultState) (r a d : Nat) (sig : Signature)
    (x : Address)
    (hd : env.timestamp ≤ d)
    (hrec : env.recover (contractDigest dom ⟨r, a, s.nonces r, d⟩) sig = some x)
    (hx : x ≠ r) :
    withdrawTo env dom s r a d sig = .error .invalidSigner ∧
    (∀ y, (stateAfter env dom s r a d sig).nonces y = s.nonces y) ∧
    eventsOf (withdrawTo env dom s r a d sig) = [] := by
  have h : withdrawTo env dom s r a d sig = .error .invalidSigner := by
    unfold withdrawTo
    rw [if_pos hd]
    simp only [hrec, if_neg hx]
  exact ⟨h, fun y => by simp [stateAfter, noncesAfter, h], by simp [eventsOf, h]⟩

/-- Witness for C4: signature 8 recovers the stranger 3, not recipient 5,
so the concrete call reverts with Invalid signer and state is kept. -/
theorem withdrawTo_unauthorized_signer_fails_witness :
    withdrawTo egEnv egDomain egState 5 1000 100 8 = .error .invalidSigner ∧
    (stateAfter egEnv egDomain egState 5 1000 100 8).nonces 5 = 0 ∧
    eventsOf (withdrawTo egEnv egDomain egState 5 1000 100 8) = [] := by
  have h := withdrawTo_unauthorized_signer_fails egEnv egDomain egState 5 1000 100 8 3
    (by decide) rfl (by decide)
  exact ⟨h.1, h.2.1 5, h.2.2⟩

/-- C3: the deadline is boundary-inclusive.  With the current time
strictly past the deadline the call reverts with Signature expired no
matter what the signature is; with the current time exactly equal to the
deadline the call is never rejected by the expiry check, and an
otherwise-valid authorization succeeds. -/
theorem withdrawTo_deadline_boundary
    (env : Env) (dom : Domain) (s : VaultState) (r a d : Nat) (sig : Signature) :
    (d < env.timestamp →
      withdrawTo env dom s r a d sig = .error .signatureExpired) ∧
    (env.timestamp = d →
      withdrawTo env dom s r a d sig ≠ .error .signatureExpired ∧
      (env.recover (contractDigest dom ⟨r, a, s.nonces r, d⟩) sig = some r →
       s.nonces r + 1 < UINT256_MOD → env.transferOk r a = true →
       errorOf (withdrawTo env dom s r a d sig) = none)) := by
  constructor
  · intro hlt
    unfold withdrawTo
    rw [if_neg (by omega)]
  · intro heq
    have hle : env.timestamp ≤ d := le_of_eq heq
    constructor
    · unfold withdrawTo
      rw [if_pos hle]
      rcases hrec : env.recover (contractDigest dom ⟨r, a, s.nonces r, d⟩) sig with _ | x
      · simp only [hrec]
        simp
      · simp only [hrec]
        split_ifs <;> simp
    · intro hsig hov ht
      have h := withdrawTo_success_eq env dom s r a d sig hle hsig hov ht
      simp [errorOf, h]

/-- Witness for C3: at block timestamp 50, deadline 49 reverts with
Signature expired, while signature 9 over the message with deadline
exactly 50 succeeds. -/
theorem withdrawTo_deadline_boundary_witness :
    withdrawTo egEnv egDomain egState 5 1000 49 7 = .error .signatureExpired ∧
    withdrawTo egEnv egDomain egState 5 1000 50 9 ≠ .error .signatureExpired ∧
    errorOf (withdrawTo egEnv egDomain egState 5 1000 50 9) = none := by
  refine ⟨(withdrawTo_deadline_boundary egEnv egDomain egState 5 1000 49 7).1 (by decide),
    ((withdrawTo_deadline_boundary egEnv egDomain egState 5 1000 50 9).2 rfl).1,
    ((withdrawTo_deadline_boundary egEnv egDomain egState 5 1000 50 9).2 rfl).2
      rfl (by norm_num [egState, initialState, UINT256_MOD]) rfl⟩

/-- C2: replay protection.  After a successful withdrawTo with a given
tuple, resubmitting the identical tuple against the advanced state (still
in time) reverts with the Invalid signer (stale nonce) error and leaves
every nonce counter unchanged.  The cryptographic side conditions say the
signature is bound to the digest it was produced over (it recovers the
recipient on no other digest) while remaining structurally recoverable on
the replayed digest. -/
theorem withdrawTo_replay_fails
    (env : Env) (dom : Domain) (s : VaultState) (r a d : Nat) (sig : Signature)
    (hd : env.timestamp ≤ d)
    (hsig : env.recover (contractDigest dom ⟨r, a, s.nonces r, d⟩) sig = some r)
    (hov : s.nonces r + 1 < UINT256_MOD)
    (ht : env.transferOk r a = true)
    (hbind : ∀ dig, env.recover dig sig = some r →
      dig = contractDigest dom ⟨r, a, s.nonces r, d⟩)
    (hrec2 : (env.recover (contractDigest dom ⟨r, a, s.nonces r + 1, d⟩) sig).isSome
      = true) :
    errorOf (withdrawTo env dom s r a d sig) = none ∧
    withdrawTo env dom (stateAfter env dom s r a d sig) r a d sig =
      .error .invalidSigner ∧
    ∀ x, (stateAfter env dom (stateAfter env dom s r a d sig) r a d sig).nonces x =
      (stateAfter env dom s r a d sig).nonces x := by
  have h1 := withdrawTo_success_eq env dom s r a d sig hd hsig hov ht
  have hs1 : (stateAfter env dom s r a d sig).nonces r = s.nonces r + 1 := by
    simp [stateAfter, noncesAfter, h1]
  rcases hx : env.recover (contractDigest dom
      ⟨r, a, s.nonces r + 1, d⟩) sig with _ | x
  · rw [hx] at hrec2
    simp [Option.isSome] at hrec2
  · have hxr : x ≠ r := by
      intro hcontra
      have hb := hbind (contractDigest dom ⟨r, a, s.nonces r + 1, d⟩)
        (hcontra ▸ hx)
      have hn : s.nonces r + 1 = s.nonces r :=
        congrArg WithdrawMessage.nonce (congrArg Digest.message hb)
      omega
    have h2 : withdrawTo env dom (stateAfter env dom s r a d sig) r a d sig =
        .error .invalidSigner := by
      unfold withdrawTo
      rw [if_pos hd, hs1]
      simp only [hx, if_neg hxr]
    refine ⟨by simp [errorOf, h1], h2, fun y => ?_⟩
    simp only [stateAfter] at h2 ⊢
    rw [noncesAfter_of_error _ _ _ h2]

/-- Witness for C2: the successful call with signature 7 advances
recipient 5's nonce to 1; submitting the identical tuple again reverts
with Invalid signer and the nonce stays 1. -/
theorem withdrawTo_replay_fails_witness :
    errorOf (withdrawTo egEnv egDomain egState 5 1000 100 7) = none ∧
    withdrawTo egEnv egDomain (stateAfter egEnv egDomain egState 5 1000 100 7)
      5 1000 100 7 = .error .invalidSigner ∧
    (stateAfter egEnv egDomain (stateAfter egEnv egDomain egState 5 1000 100 7)
      5 1000 100 7).nonces 5 =
      (stateAfter egEnv egDomain egState 5 1000 100 7).nonces 5 := by
  have h := withdrawTo_replay_fails egEnv egDomain egState 5 1000 100 7
    (by decide) rfl (by norm_num [egState, initialState, UINT256_MOD]) rfl
    (by
      intro dig hdig
      simp only [egEnv, egRecover] at hdig
      by_cases hd7 : dig = contractDigest egDomain (egMsgAt 100)
      · simpa [egState, initialState, egMsgAt] using hd7
      · simp [hd7] at hdig)
    (by rfl)
  exact ⟨h.1, h.2.1, h.2.2 5⟩

/-- C8: a successful withdrawTo emits exactly one Withdraw audit record
carrying the recipient, the amount, and the pre-increment nonce the
signed message was constructed over (n, not n + 1); a reverted call
emits nothing. -/
theorem withdrawTo_audit_event
    (env : Env) (dom : Domain) (s : VaultState) (r a d : Nat) (sig : Signature) :
    (env.timestamp ≤ d →
     env.recover (contractDigest dom ⟨r, a, s.nonces r, d⟩) sig = some r →
     s.nonces r + 1 < UINT256_MOD → env.transferOk r a = true →
     eventsOf (withdrawTo env dom s r a d sig) = [⟨r, a, s.nonces r⟩]) ∧
    (∀ e, withdrawTo env dom s r a d sig = .error e →
     eventsOf (withdrawTo env dom s r a d sig) = []) := by
  constructor
  · intro hd hsig hov ht
    have h := withdrawTo_success_eq env dom s r a d sig hd hsig hov ht
    simp [eventsOf, h]
  · intro e he
    simp [eventsOf, he]

/-- Witness for C8: the successful concrete call emits exactly the record
with recipient 5, amount 1000, nonce 0; the failing wrong-signer call
emits nothing. -/
theorem withdrawTo_audit_event_witness :
    eventsOf (withdrawTo egEnv egDomain egState 5 1000 100 7) =
      [⟨5, 1000, 0⟩] ∧
    eventsOf (withdrawTo egEnv egDomain egState 5 1000 100 8) = [] := by
  refine ⟨(withdrawTo_audit_event egEnv egDomain egState 5 1000 100 7).1
      (by decide) rfl (by norm_num [egState, initialState, UINT256_MOD]) rfl,
    (withdrawTo_audit_event egEnv egDomain egState 5 1000 100 8).2
      .invalidSigner rfl⟩

/-- C10: withdrawTo is atomic on failure.  Any revert — expired deadline,
recovery failure, signer mismatch, or the token transfer returning
false — leaves every nonce counter exactly as before the call; in
particular a failed transfer rolls back the nonce increment that
textually precedes it, so a consumed-nonce-without-transfer state is
unreachable and the transfer failure is surfaced as the distinct Transfer
failed error. -/
theorem withdrawTo_atomic_on_failure
    (env : Env) (dom : Domain) (s : VaultState) (r a d : Nat) (sig : Signature) :
    (∀ e, withdrawTo env dom s r a d sig = .error e →
      ∀ x, (stateAfter env dom s r a d sig).nonces x = s.nonces x) ∧
    (env.timestamp ≤ d →
     env.recover (contractDigest dom ⟨r, a, s.nonces r, d⟩) sig = some r →
     s.nonces r + 1 < UINT256_MOD →
     env.transferOk r a = false →
     withdrawTo env dom s r a d sig = .error .transferFailed) := by
  constructor
  · intro e he x
    simp only [stateAfter]
    rw [noncesAfter_of_error _ _ _ he]
  · intro hd hsig hov ht
    unfold withdrawTo
    rw [if_pos hd]
    simp only [hsig, if_pos rfl, if_pos hov, ht]
    simp

/-- Witness for C10: with the token transfer failing, the otherwise-valid
concrete call reverts with Transfer failed and recipient 5's nonce stays
0 — no consumed-nonce-without-transfer state. -/
theorem withdrawTo_atomic_on_failure_witness :
    withdrawTo egEnvNoTransfer egDomain egState 5 1000 100 7 =
      .error .transferFailed ∧
    (stateAfter egEnvNoTransfer egDomain egState 5 1000 100 7).nonces 5 = 0 := by
  have h := withdrawTo_atomic_on_failure egEnvNoTransfer egDomain egState 5 1000 100 7
  have h2 := h.2 (by decide) rfl
    (by norm_num [egState, initialState, UINT256_MOD]) rfl
  exact ⟨h2, h.1 .transferFailed h2 5⟩

/-- C9: domain isolation.  Two domain descriptors that differ in any of
name, version, chain id or verifying-contract address yield different
typed-data digests for the same message, and a signature bound to the
digest under the first domain does not verify under the second. -/
theorem domain_isolation
    (D₁ D₂ : Domain) (m : WithdrawMessage) (env : Env) (sig : Signature)
    (r : Address) (hne : D₁ ≠ D₂) :
    contractDigest D₁ m ≠ contractDigest D₂ m ∧
    ((∀ dig, env.recover dig sig = some r → dig = contractDigest D₁ m) →
      env.recover (contractDigest D₂ m) sig ≠ some r) := by
  constructor
  · intro h
    exact hne (congrArg Digest.domain h)
  · intro hbind hver
    exact hne (congrArg Digest.domain (hbind _ hver)).symm

/-- Witness for C9: the deployed domain on chain 1 versus the same
deployment parameters on chain 2: the digests differ and signature 7,
bound to recipient 5's message under chain 1, does not verify under
chain 2. -/
theorem domain_isolation_witness :
    contractDigest egDomain (egMsgAt 100) ≠
      contractDigest egDomainOtherChain (egMsgAt 100) ∧
    egEnv.recover (contractDigest egDomainOtherChain (egMsgAt 100)) 7 ≠
      some 5 := by
  have h := domain_isolation egDomain egDomainOtherChain (egMsgAt 100) egEnv 7 5
    (by decide)
  refine ⟨h.1, h.2 ?_⟩
  intro dig hdig
  simp only [egEnv, egRecover] at hdig
  by_cases hd7 : dig = contractDigest egDomain (egMsgAt 100)
  · exact hd7
  · simp [hd7] at hdig

/-- C6 counterexample: the code does not give replay a distinguishable
error.  On the concrete instance, recipient 5's valid signature 7 is
redeemed once; replaying the identical tuple against the advanced nonce
reverts with exactly the same Invalid signer error (same revert string)
that a plain wrong-signer submission (signature 8) produces, so the two
failure causes are not distinguishable by the caller. -/
theorem replay_error_collapse_counterexample :
    errorOf (withdrawTo egEnv egDomain egState 5 1000 100 7) = none ∧
    withdrawTo egEnv egDomain (stateAfter egEnv egDomain egState 5 1000 100 7)
      5 1000 100 7 = .error .invalidSigner ∧
    withdrawTo egEnv egDomain egState 5 1000 100 8 = .error .invalidSigner ∧
    withdrawTo egEnv egDomain (stateAfter egEnv egDomain egState 5 1000 100 7)
      5 1000 100 7 = withdrawTo egEnv egDomain egState 5 1000 100 8 ∧
    VaultError.invalidSigner.reason = "Invalid signer" :=
  ⟨rfl, rfl, rfl, rfl, rfl⟩

/-- C6 amended: expired deadline, wrong signer and failed transfer are
reported with three pairwise distinct errors, but a stale-nonce replay is
reported with the same Invalid signer error as a plain wrong-signer
failure — the code has no separate stale-nonce check, so those two causes
collapse. -/
theorem error_taxonomy_amended
    (env : Env) (dom : Domain) (s : VaultState) (r a d : Nat) (sig : Signature) :
    (d < env.timestamp →
      withdrawTo env dom s r a d sig = .error .signatureExpired) ∧
    (env.timestamp ≤ d → ∀ x,
      env.recover (contractDigest dom ⟨r, a, s.nonces r, d⟩) sig = some x →
      x ≠ r → withdrawTo env dom s r a d sig = .error .invalidSigner) ∧
    (env.timestamp ≤ d →
      env.recover (contractDigest dom ⟨r, a, s.nonces r, d⟩) sig = some r →
      s.nonces r + 1 < UINT256_MOD → env.transferOk r a = false →
      withdrawTo env dom s r a d sig = .error .transferFailed) ∧
    (VaultError.signatureExpired ≠ VaultError.invalidSigner ∧
     VaultError.signatureExpired ≠ VaultError.transferFailed ∧
     VaultError.invalidSigner ≠ VaultError.transferFailed) := by
  refine ⟨?_, ?_, ?_, by decide, by decide, by decide⟩
  · intro hlt
    unfold withdrawTo
    rw [if_neg (by omega)]
  · intro hd x hrec hx
    unfold withdrawTo
    rw [if_pos hd]
    simp only [hrec, if_neg hx]
  · intro hd hsig hov ht
    unfold withdrawTo
    rw [if_pos hd]
    simp only [hsig, if_pos rfl, if_pos hov, ht]
    simp

/-- Witness for the amended C6: the three genuinely distinct failures on
concrete inputs. -/
theorem error_taxonomy_amended_witness :
    withdrawTo egEnv egDomain egState 5 1000 49 7 = .error .signatureExpired ∧
    withdrawTo egEnv egDomain egState 5 1000 100 8 = .error .invalidSigner ∧
    withdrawTo egEnvNoTransfer egDomain egState 5 1000 100 7 =
      .error .transferFailed := by
  refine ⟨(error_taxonomy_amended egEnv egDomain egState 5 1000 49 7).1 (by decide),
    (error_taxonomy_amended egEnv egDomain egState 5 1000 100 8).2.1
      (by decide) 3 rfl (by decide),
    (error_taxonomy_amended egEnvNoTransfer egDomain egState 5 1000 100 7).2.2.1
      (by decide) rfl (by norm_num [egState, initialState, UINT256_MOD]) rfl⟩

end TokenVault
